import Mathlib

/-!
Verification of the BLE connectivity monitor and LED-configuration writer
from `src/src-tauri/src/lib.rs`.

The Rust code is embedded shallowly:

* External I/O calls (`adapter_info`, `start_scan`, `peripherals`,
  `properties`, `is_connected`, `connect`, `emit`, `discover_services`,
  `write`, `bincode` encoding) are fallible in Rust (they return
  `Result`); each call site is modelled by an oracle field of type
  `Res α := Except String α` describing the result that call returns in
  the cycle under consideration.
* The shared slot `ESP_PERIPHERAL : RwLock<Option<Peripheral>>` is
  modelled as an `Option Nat` (the stored peripheral's identity) threaded
  through the cycle function.
* One iteration of the `loop` body of `ble_monitoring` is the function
  `cycle`; the infinite loop over a finite schedule of environments is
  `monitorRun`.
* `?` propagation is a `fatal` outcome (the `anyhow::Result` error leaves
  `ble_monitoring`); `.unwrap()` / `.expect(...)` on an error is a
  `crashed` outcome.  Both outcomes record the slot contents and the
  events successfully emitted up to the failure point.
-/

namespace BleSpec

/-- Result type of a fallible Rust call (`Result<T, E>` with an opaque
error rendered as a string). -/
abbrev Res (α : Type) := Except String α

instance {ε α : Type} [DecidableEq ε] [DecidableEq α] : DecidableEq (Except ε α)
  | .ok a, .ok b =>
    if h : a = b then .isTrue (by rw [h]) else .isFalse (by simp [h])
  | .error a, .error b =>
    if h : a = b then .isTrue (by rw [h]) else .isFalse (by simp [h])
  | .ok _, .error _ => .isFalse (by simp)
  | .error _, .ok _ => .isFalse (by simp)

/-- `const ESP_BLE_NAME: &str = "esp-bluedroid LED Example";` -/
def ESP_BLE_NAME : String := "esp-bluedroid LED Example"

/-- `properties.unwrap().local_name.unwrap_or(String::from("(peripheral name unknown)"))` -/
def effectiveLocalName (localName : Option String) : String :=
  localName.getD "(peripheral name unknown)"

/-- The name test `local_name == ESP_BLE_NAME` applied to the advertised
name (`None` when the peripheral advertises no name). -/
def nameMatches (localName : Option String) : Bool :=
  effectiveLocalName localName == ESP_BLE_NAME

/-- Behaviour of one enumerated peripheral during one scan cycle: its
identity, and the results of each I/O call the loop body can make on it.
`props` models `peripheral.properties()` = `Result<Option<Properties>>`,
a `Properties` value being reduced to its `local_name` field (the only
one read).  `emitRes` is the result of the `emit("connection-status",
true)` call made for this candidate, when reached. -/
structure PeripheralB where
  pid : Nat
  props : Res (Option (Option String))
  isConnectedPre : Res Bool
  connectRes : Res Unit
  isConnectedPost : Res Bool
  emitRes : Res Unit
deriving Repr, DecidableEq

/-- Results of the I/O calls one iteration of the monitor loop can make
outside the per-peripheral ones. -/
structure CycleEnv where
  /-- `is_connected()` on the bound handle (BOUND branch). -/
  boundIsConnected : Res Bool
  /-- `emit("connection-status", true)` in the BOUND branch. -/
  emitBoundTrue : Res Unit
  /-- `emit("connection-status", false)` in the BOUND branch. -/
  emitBoundFalse : Res Unit
  /-- `ADAPTER.adapter_info()`. -/
  adapterInfo : Res String
  /-- `ADAPTER.start_scan(ScanFilter::default())` (followed by `.expect`). -/
  startScan : Res Unit
  /-- `ADAPTER.peripherals()`. -/
  peripherals : Res (List PeripheralB)
  /-- `emit("connection-status", false)` in the `!found` branch. -/
  emitNotFound : Res Unit
deriving Repr, DecidableEq

/-- Outcome of one iteration of the monitor loop: normal completion,
propagation of an error out of `ble_monitoring` (`?`), or a panic
(`.expect` / `.unwrap`).  The slot contents and the successfully emitted
events at the moment control leaves the iteration are recorded. -/
inductive CycleResult where
  | ok (slot : Option Nat) (events : List Bool)
  | fatal (e : String) (slot : Option Nat) (events : List Bool)
  | crashed (slot : Option Nat) (events : List Bool)
deriving Repr, DecidableEq

/-- Early exit of the `for` loop over scan results: an error propagating
out of `ble_monitoring` via `?`, or a panic.  Records the slot contents
and the successfully emitted events at the exit point. -/
inductive ScanExit where
  | fatal (e : String) (slot : Option Nat) (events : List Bool)
  | crashed (slot : Option Nat) (events : List Bool)
deriving Repr, DecidableEq

/-- The `for peripheral in peripherals.iter()` loop of `ble_monitoring`
(lines 89–125).  State carried across iterations: the slot, the emitted
events, and the `found` flag.  `.inl` is an early exit of the whole loop
body (error propagation or panic); `.inr` is normal completion of the
`for` loop. -/
def scanPeripherals : List PeripheralB → Option Nat → List Bool → Bool →
    ScanExit ⊕ (Option Nat × List Bool × Bool)
  | [], slot, events, found => .inr (slot, events, found)
  | p :: rest, slot, events, found =>
    match p.props with
    | .error e => .inl (.fatal e slot events)
    | .ok propsOpt =>
      match p.isConnectedPre with
      | .error e => .inl (.fatal e slot events)
      | .ok preConnected =>
        match propsOpt with
        | none => .inl (.crashed slot events)
        | some localName =>
          if nameMatches localName then
            match (if preConnected then Except.ok () else p.connectRes) with
            | .error _ => scanPeripherals rest slot events true
            | .ok _ =>
              match p.isConnectedPost with
              | .error e => .inl (.fatal e slot events)
              | .ok postConnected =>
                if postConnected then
                  match p.emitRes with
                  | .error e => .inl (.fatal e (some p.pid) events)
                  | .ok _ => scanPeripherals rest (some p.pid) (events ++ [true]) true
                else
                  scanPeripherals rest (some p.pid) events true
          else
            scanPeripherals rest slot events found

/-- One iteration of the `loop` body of `ble_monitoring` (lines 43–137),
starting after the 3-second sleep, as a function of the current slot
contents and the cycle's I/O results. -/
def cycle (slot : Option Nat) (env : CycleEnv) : CycleResult :=
  match slot with
  | some pid =>
    match env.boundIsConnected with
    | .error e => .fatal e (some pid) []
    | .ok true =>
      match env.emitBoundTrue with
      | .error e => .fatal e (some pid) []
      | .ok _ => .ok (some pid) [true]
    | .ok false =>
      match env.emitBoundFalse with
      | .error e => .fatal e none []
      | .ok _ => .ok none [false]
  | none =>
    match env.adapterInfo with
    | .error e => .fatal e none []
    | .ok _ =>
      match env.startScan with
      | .error _ => .crashed none []
      | .ok _ =>
        match env.peripherals with
        | .error e => .fatal e none []
        | .ok ps =>
          match scanPeripherals ps none [] false with
          | .inl (.fatal e s evs) => .fatal e s evs
          | .inl (.crashed s evs) => .crashed s evs
          | .inr (slot', events, found) =>
            if found then .ok slot' events
            else
              match env.emitNotFound with
              | .error e => .fatal e none events
              | .ok _ => .ok none (events ++ [false])

/-- The infinite `loop` of `ble_monitoring`, run over a finite schedule
of per-cycle environments.  `.inl r` means the loop terminated early
with outcome `r` (error propagation or panic); `.inr (slot, events)`
means every scheduled cycle completed normally. -/
def monitorRun : Option Nat → List CycleEnv → CycleResult ⊕ (Option Nat × List Bool)
  | slot, [] => .inr (slot, [])
  | slot, env :: rest =>
    match cycle slot env with
    | .ok slot' events =>
      match monitorRun slot' rest with
      | .inl r => .inl r
      | .inr (s, evs) => .inr (s, events ++ evs)
    | .fatal e s evs => .inl (.fatal e s evs)
    | .crashed s evs => .inl (.crashed s evs)

/-- The peripheral passes the name test of line 97: its properties read
back `Ok(Some(props))` and the effective local name equals
`ESP_BLE_NAME`. -/
def matchesTarget (p : PeripheralB) : Bool :=
  match p.props with
  | .ok (some localName) => nameMatches localName
  | _ => false

/-- The peripheral reaches line 113 (`*ESP_PERIPHERAL.write().await =
Some(peripheral.clone())`) when processed during a scan with error-free
reads: it matches the target name and is either already connected or its
connect attempt succeeds.  The post-attempt connection flag plays no
role. -/
def storable (p : PeripheralB) : Bool :=
  matchesTarget p &&
  (match p.isConnectedPre with
   | .ok true => true
   | .ok false => p.connectRes.isOk
   | .error _ => false)

/-- The peripheral's reads succeed and its name does not match the
target: the loop body walks past it without any effect. -/
def cleanMiss (p : PeripheralB) : Bool :=
  match p.props, p.isConnectedPre with
  | .ok (some localName), .ok _ => !nameMatches localName
  | _, _ => false

/-- The peripheral's reads succeed and it contributes no event: either
its name does not match, or it matches but every route to the
connected-event emission is cut off — the connect attempt fails, or the
post-attempt connection flag reads back `Ok(false)`. -/
def deadMatch (p : PeripheralB) : Bool :=
  match p.props, p.isConnectedPre with
  | .ok (some localName), .ok pre =>
    !nameMatches localName ||
    (if pre then decide (p.isConnectedPost = .ok false)
     else
       match p.connectRes with
       | .error _ => true
       | .ok _ => decide (p.isConnectedPost = .ok false))
  | _, _ => false

/-- `WriteType` of `btleplug::api` (only the two modes used here). -/
inductive WriteType where
  | withResponse
  | withoutResponse
deriving Repr, DecidableEq

/-- A GATT characteristic, reduced to its `uuid` field (the only one the
writer reads); a 128-bit UUID is modelled as a `Nat`. -/
structure Characteristic where
  uuid : Nat
deriving Repr, DecidableEq

/-- `Uuid::from_u128(42424242)`. -/
def LED_CONFIG_CHAR_UUID : Nat := 42424242

/-- `struct LedConfiguration { pwm_duty: f32, pwm_frequency: f32,
enabled: bool }`.  The two `f32` fields are modelled by their 32-bit
patterns as naturals: the writer never computes with them, it only hands
the value to the oracle-modelled `bincode` encoder. -/
structure LedConfiguration where
  pwm_duty : Nat
  pwm_frequency : Nat
  enabled : Bool
deriving Repr, DecidableEq

/-- Results of the I/O calls `update_led_config` can make: the slot it
reads, `discover_services()`, the characteristic list returned by
`characteristics()`, the `bincode::serde::encode_to_vec` result for the
given configuration, and the `write` result. -/
structure WriterEnv where
  slot : Option Nat
  discoverServices : Res Unit
  characteristics : List Characteristic
  encodeResult : LedConfiguration → Res (List Nat)
  writeResult : Res Unit

/-- Peripheral I/O operations the writer can perform, in order. -/
inductive WIO where
  | discover
  | write (uuid : Nat) (bytes : List Nat) (mode : WriteType)
deriving Repr, DecidableEq

/-- How `update_led_config` returns to its caller: normally (all soft
failures included — the function has no error return), or by panicking
(`.unwrap()` on a failed write). -/
inductive WriterOutcome where
  | returned
  | crashed
deriving Repr, DecidableEq

/-- `update_led_config` (lines 144–179): outcome together with the trace
of peripheral I/O operations performed. -/
def update_led_config (led_config : LedConfiguration) (env : WriterEnv) :
    WriterOutcome × List WIO :=
  match env.slot with
  | none => (.returned, [])
  | some _ =>
    match env.discoverServices with
    | .error _ => (.returned, [.discover])
    | .ok _ =>
      match env.characteristics.find? (fun el => el.uuid == LED_CONFIG_CHAR_UUID) with
      | none => (.returned, [.discover])
      | some led_config_char =>
        match env.encodeResult led_config with
        | .error _ => (.returned, [.discover])
        | .ok new_config_bytes =>
          match env.writeResult with
          | .error _ =>
            (.crashed,
             [.discover, .write led_config_char.uuid new_config_bytes .withoutResponse])
          | .ok _ =>
            (.returned,
             [.discover, .write led_config_char.uuid new_config_bytes .withoutResponse])

/-! Concrete cycle and writer environments used to evaluate the theorems
below on explicit inputs. -/

/-- A cycle whose bound handle reads back connected and whose emit
succeeds. -/
def envBoundTrue : CycleEnv :=
  { boundIsConnected := .ok true, emitBoundTrue := .ok (), emitBoundFalse := .ok (),
    adapterInfo := .ok "hci0", startScan := .ok (), peripherals := .ok [],
    emitNotFound := .ok () }

/-- A cycle whose bound-handle connection-flag read fails. -/
def envBoundReadFails : CycleEnv :=
  { boundIsConnected := .error "adapter gone", emitBoundTrue := .ok (),
    emitBoundFalse := .ok (), adapterInfo := .ok "hci0", startScan := .ok (),
    peripherals := .ok [], emitNotFound := .ok () }

/-- A name-matching peripheral that is stored although its post-attempt
connection flag reads back false: not connected before, connect attempt
succeeds, flag still false afterwards. -/
def peripheralStoredNotConnected : PeripheralB :=
  { pid := 0, props := .ok (some (some ESP_BLE_NAME)), isConnectedPre := .ok false,
    connectRes := .ok (), isConnectedPost := .ok false, emitRes := .ok () }

/-- A scan cycle that enumerates exactly `peripheralStoredNotConnected`. -/
def envStoredNotConnected : CycleEnv :=
  { boundIsConnected := .ok true, emitBoundTrue := .ok (), emitBoundFalse := .ok (),
    adapterInfo := .ok "hci0", startScan := .ok (),
    peripherals := .ok [peripheralStoredNotConnected], emitNotFound := .ok () }

/-- A peripheral whose name does not match the target. -/
def peripheralOtherName : PeripheralB :=
  { pid := 1, props := .ok (some (some "Heart Rate Monitor")), isConnectedPre := .ok false,
    connectRes := .ok (), isConnectedPost := .ok false, emitRes := .ok () }

/-- A scan cycle that enumerates only the non-matching peripheral. -/
def envScanMiss : CycleEnv :=
  { boundIsConnected := .ok true, emitBoundTrue := .ok (), emitBoundFalse := .ok (),
    adapterInfo := .ok "hci0", startScan := .ok (),
    peripherals := .ok [peripheralOtherName], emitNotFound := .ok () }

/-- A name-matching peripheral already connected whose emit call fails. -/
def peripheralEmitFails : PeripheralB :=
  { pid := 4, props := .ok (some (some ESP_BLE_NAME)), isConnectedPre := .ok true,
    connectRes := .ok (), isConnectedPost := .ok true, emitRes := .error "emit failed" }

/-- A name-matching peripheral whose connect attempt fails. -/
def peripheralConnectFails : PeripheralB :=
  { pid := 2, props := .ok (some (some ESP_BLE_NAME)), isConnectedPre := .ok false,
    connectRes := .error "connect refused", isConnectedPost := .ok false,
    emitRes := .ok () }

/-- A scan cycle whose only peripheral matches the target name but fails
its connect attempt. -/
def envConnectFails : CycleEnv :=
  { boundIsConnected := .ok true, emitBoundTrue := .ok (), emitBoundFalse := .ok (),
    adapterInfo := .ok "hci0", startScan := .ok (),
    peripherals := .ok [peripheralConnectFails], emitNotFound := .ok () }

/-- A writer environment with an empty slot. -/
def envWriterEmpty : WriterEnv :=
  { slot := none, discoverServices := .ok (),
    characteristics := [⟨LED_CONFIG_CHAR_UUID⟩],
    encodeResult := fun _ => .ok [0, 0, 0, 0, 0, 0, 0, 0, 1], writeResult := .ok () }

/-- A writer environment whose bound handle lacks the target
characteristic. -/
def envWriterNoChar : WriterEnv :=
  { slot := some 3, discoverServices := .ok (),
    characteristics := [⟨99⟩, ⟨100⟩],
    encodeResult := fun _ => .ok [1], writeResult := .ok () }

/-- A writer environment where every precondition holds but the write
itself fails. -/
def envWriterBadWrite : WriterEnv :=
  { slot := some 3, discoverServices := .ok (),
    characteristics := [⟨99⟩, ⟨LED_CONFIG_CHAR_UUID⟩],
    encodeResult := fun _ => .ok [1, 2, 3], writeResult := .error "write failed" }

/-- A storable peripheral passes the name test. -/
theorem storable_matchesTarget (p : PeripheralB) (h : storable p = true) :
    matchesTarget p = true := by
  simp only [storable, Bool.and_eq_true] at h
  exact h.1

/-- A scan pass over peripherals that all read cleanly and miss the name
test changes nothing: slot, events and the `found` flag come out as they
went in. -/
theorem scanPeripherals_all_miss (ps : List PeripheralB) :
    ∀ slot events found, (∀ p ∈ ps, cleanMiss p = true) →
      scanPeripherals ps slot events found = .inr (slot, events, found) := by
  induction ps with
  | nil => intro slot events found _; rfl
  | cons p rest ih =>
    intro slot events found hall
    have hp : cleanMiss p = true := hall p (List.mem_cons_self p rest)
    have hrest : ∀ q ∈ rest, cleanMiss q = true :=
      fun q hq => hall q (List.mem_cons_of_mem p hq)
    cases hprops : p.props with
    | error e => simp [cleanMiss, hprops] at hp
    | ok propsOpt =>
      cases hpre : p.isConnectedPre with
      | error e => simp [cleanMiss, hprops, hpre] at hp
      | ok b =>
        cases propsOpt with
        | none => simp [cleanMiss, hprops, hpre] at hp
        | some localName =>
          simp only [cleanMiss, hprops, hpre, Bool.not_eq_true'] at hp
          simp [scanPeripherals, hprops, hpre, hp, ih _ _ _ hrest]

/-- Characterization of a scan pass that completes its `for` loop
normally: the resulting slot is non-empty iff it was non-empty on entry
or some enumerated peripheral was storable (name match plus already
connected or successful connect — the post-attempt flag is irrelevant),
and the resulting `found` flag records exactly whether some peripheral
passed the name test. -/
theorem scanPeripherals_inr_characterize (ps : List PeripheralB) :
    ∀ slot events found slot' events' found',
      scanPeripherals ps slot events found = .inr (slot', events', found') →
      (slot'.isSome = true ↔ slot.isSome = true ∨ ∃ p ∈ ps, storable p = true)
      ∧ found' = (found || ps.any matchesTarget) := by
  induction ps with
  | nil =>
    intro slot events found slot' events' found' h
    simp only [scanPeripherals, Sum.inr.injEq, Prod.mk.injEq] at h
    obtain ⟨h1, _, h3⟩ := h
    subst h1; subst h3
    simp
  | cons p rest ih =>
    intro slot events found slot' events' found' h
    cases hprops : p.props with
    | error e => simp [scanPeripherals, hprops] at h
    | ok propsOpt =>
      cases hpre : p.isConnectedPre with
      | error e => simp [scanPeripherals, hprops, hpre] at h
      | ok preConnected =>
        cases propsOpt with
        | none => simp [scanPeripherals, hprops, hpre] at h
        | some localName =>
          by_cases hname : nameMatches localName = true
          · have hmt : matchesTarget p = true := by
              simp [matchesTarget, hprops, hname]
            cases preConnected with
            | true =>
              have hst : storable p = true := by
                simp [storable, hmt, hpre]
              cases hpost : p.isConnectedPost with
              | error e => simp [scanPeripherals, hprops, hpre, hname, hpost] at h
              | ok postConnected =>
                cases postConnected with
                | true =>
                  cases hemit : p.emitRes with
                  | error e =>
                    simp [scanPeripherals, hprops, hpre, hname, hpost, hemit] at h
                  | ok u =>
                    rw [scanPeripherals] at h
                    simp only [hprops, hpre, hname, hpost, hemit, if_true] at h
                    obtain ⟨hiff, hfound⟩ := ih _ _ _ _ _ _ h
                    refine ⟨?_, ?_⟩
                    · rw [hiff]; simp [hst, hmt]
                    · rw [hfound]; simp [hmt]
                | false =>
                  rw [scanPeripherals] at h
                  simp only [hprops, hpre, hname, hpost, if_true] at h
                  obtain ⟨hiff, hfound⟩ := ih _ _ _ _ _ _ h
                  refine ⟨?_, ?_⟩
                  · rw [hiff]; simp [hst, hmt]
                  · rw [hfound]; simp [hmt]
            | false =>
              cases hconn : p.connectRes with
              | error e =>
                have hst : storable p = false := by
                  simp [storable, hmt, hpre, hconn, Except.isOk, Except.toBool]
                rw [scanPeripherals] at h
                simp only [hprops, hpre, hname, hconn, if_false] at h
                obtain ⟨hiff, hfound⟩ := ih _ _ _ _ _ _ h
                refine ⟨?_, ?_⟩
                · rw [hiff]; simp [hst, hmt]
                · rw [hfound]; simp [hmt]
              | ok u =>
                have hst : storable p = true := by
                  simp [storable, hmt, hpre, hconn, Except.isOk, Except.toBool]
                cases hpost : p.isConnectedPost with
                | error e =>
                  simp [scanPeripherals, hprops, hpre, hname, hconn, hpost] at h
                | ok postConnected =>
                  cases postConnected with
                  | true =>
                    cases hemit : p.emitRes with
                    | error e =>
                      simp [scanPeripherals, hprops, hpre, hname, hconn, hpost, hemit] at h
                    | ok u2 =>
                      rw [scanPeripherals] at h
                      simp only [hprops, hpre, hname, hconn, hpost, hemit, if_false] at h
                      obtain ⟨hiff, hfound⟩ := ih _ _ _ _ _ _ h
                      refine ⟨?_, ?_⟩
                      · rw [hiff]; simp [hst, hmt]
                      · rw [hfound]; simp [hmt]
                  | false =>
                    rw [scanPeripherals] at h
                    simp only [hprops, hpre, hname, hconn, hpost, if_false] at h
                    obtain ⟨hiff, hfound⟩ := ih _ _ _ _ _ _ h
                    refine ⟨?_, ?_⟩
                    · rw [hiff]; simp [hst, hmt]
                    · rw [hfound]; simp [hmt]
          · have hname' : nameMatches localName = false := by
              simpa using hname
            have hmt : matchesTarget p = false := by
              simp [matchesTarget, hprops, hname']
            have hst : storable p = false := by
              simp [storable, hmt]
            rw [scanPeripherals] at h
            simp only [hprops, hpre, hname', if_false, Bool.false_eq_true] at h
            obtain ⟨hiff, hfound⟩ := ih _ _ _ _ _ _ h
            refine ⟨?_, ?_⟩
            · rw [hiff]; simp [hst]
            · rw [hfound]; simp [hmt]

/-- A scan pass over peripherals that all read cleanly and are all
`deadMatch` (non-matching, or matching with no route to the connected
emission) completes its `for` loop normally, emits nothing, and sets
`found` exactly when some peripheral passed the name test. -/
theorem scanPeripherals_all_dead (ps : List PeripheralB) :
    ∀ slot events found, (∀ p ∈ ps, deadMatch p = true) →
      ∃ slot', scanPeripherals ps slot events found =
        .inr (slot', events, found || ps.any matchesTarget) := by
  induction ps with
  | nil => intro slot events found _; exact ⟨slot, by simp [scanPeripherals]⟩
  | cons p rest ih =>
    intro slot events found hall
    have hp : deadMatch p = true := hall p (List.mem_cons_self p rest)
    have hrest : ∀ q ∈ rest, deadMatch q = true :=
      fun q hq => hall q (List.mem_cons_of_mem p hq)
    cases hprops : p.props with
    | error e => simp [deadMatch, hprops] at hp
    | ok propsOpt =>
      cases hpre : p.isConnectedPre with
      | error e => simp [deadMatch, hprops, hpre] at hp
      | ok pre =>
        cases propsOpt with
        | none => simp [deadMatch, hprops, hpre] at hp
        | some localName =>
          by_cases hname : nameMatches localName = true
          · have hmt : matchesTarget p = true := by
              simp [matchesTarget, hprops, hname]
            cases pre with
            | true =>
              have hpost : p.isConnectedPost = .ok false := by
                simpa [deadMatch, hprops, hpre, hname] using hp
              obtain ⟨slot', hs⟩ := ih (some p.pid) events true hrest
              refine ⟨slot', ?_⟩
              rw [scanPeripherals]
              simp only [hprops, hpre, hname, hpost, if_true, hs]
              simp [List.any_cons, hmt]
            | false =>
              cases hconn : p.connectRes with
              | error e =>
                obtain ⟨slot', hs⟩ := ih slot events true hrest
                refine ⟨slot', ?_⟩
                rw [scanPeripherals]
                simp only [hprops, hpre, hname, hconn, if_false, hs]
                simp [List.any_cons, hmt]
              | ok u =>
                have hpost : p.isConnectedPost = .ok false := by
                  simpa [deadMatch, hprops, hpre, hname, hconn] using hp
                obtain ⟨slot', hs⟩ := ih (some p.pid) events true hrest
                refine ⟨slot', ?_⟩
                rw [scanPeripherals]
                simp only [hprops, hpre, hname, hconn, hpost, if_false, hs]
                simp [List.any_cons, hmt]
          · have hname' : nameMatches localName = false := by
              simpa using hname
            have hmt : matchesTarget p = false := by
              simp [matchesTarget, hprops, hname']
            obtain ⟨slot', hs⟩ := ih slot events found hrest
            refine ⟨slot', ?_⟩
            rw [scanPeripherals]
            simp only [hprops, hpre, hname', if_false, Bool.false_eq_true, hs]
            simp [List.any_cons, hmt]

/-- **C6** — Name matching is exact, case-sensitive string equality
against the hardcoded target `"esp-bluedroid LED Example"`: a peripheral
matches iff its advertised name is exactly that string; differing case or
a trailing space does not match; a peripheral with no advertised name is
given the fixed placeholder `"(peripheral name unknown)"` and never
matches. -/
theorem C6_exact_name_matching :
    (∀ localName : Option String,
        nameMatches localName = true ↔ localName = some ESP_BLE_NAME)
    ∧ effectiveLocalName none = "(peripheral name unknown)"
    ∧ nameMatches none = false
    ∧ nameMatches (some "ESP-Bluedroid LED Example") = false
    ∧ nameMatches (some "esp-bluedroid LED Example ") = false := by
  refine ⟨?_, rfl, by decide, by decide, by decide⟩
  intro localName
  cases localName with
  | none => simp [nameMatches, effectiveLocalName, ESP_BLE_NAME]
  | some s =>
    simp only [nameMatches, effectiveLocalName, Option.getD_some, beq_iff_eq,
      Option.some.injEq]

/-- **C2** — A cycle entered with a non-empty slot (BOUND): if the bound
handle's connection flag reads back true, the monitor emits `true` and
leaves the slot unchanged; if it reads back false, the monitor clears
the slot and emits `false` exactly once.  The third conjunct states that
a cycle entered with an empty slot never consults the bound-state
oracles, i.e. the next cycle after a clear runs the UNBOUND (scanning)
path. -/
theorem C2_bound_cycle (pid : Nat) (env : CycleEnv) :
    (env.boundIsConnected = .ok true → env.emitBoundTrue = .ok () →
        cycle (some pid) env = .ok (some pid) [true])
    ∧ (env.boundIsConnected = .ok false → env.emitBoundFalse = .ok () →
        cycle (some pid) env = .ok none [false])
    ∧ (∀ env₂ : CycleEnv, cycle none env₂ =
        cycle none { env₂ with
                     boundIsConnected := .error "unread",
                     emitBoundTrue := .error "unread",
                     emitBoundFalse := .error "unread" }) := by
  refine ⟨?_, ?_, fun env₂ => rfl⟩
  · intro h1 h2; simp [cycle, h1, h2]
  · intro h1 h2; simp [cycle, h1, h2]

/-- Witness for C2 at a concrete environment. -/
theorem C2_bound_cycle_witness :
    cycle (some 7) envBoundTrue = .ok (some 7) [true] :=
  (C2_bound_cycle 7 envBoundTrue).1 rfl rfl

/-- **C3** — Invoking `update_led_config` while the slot is empty
performs no peripheral I/O at all and returns normally, whatever the
configuration value and the rest of the environment. -/
theorem C3_empty_slot_noop (led_config : LedConfiguration) (env : WriterEnv)
    (h : env.slot = none) :
    update_led_config led_config env = (.returned, []) := by
  simp [update_led_config, h]

/-- Witness for C3 at a concrete environment. -/
theorem C3_empty_slot_noop_witness :
    update_led_config ⟨0, 0, true⟩ envWriterEmpty = (.returned, []) :=
  C3_empty_slot_noop ⟨0, 0, true⟩ envWriterEmpty rfl

/-- **C4** — The writer's four preconditions are checked in order
(slot non-empty, discovery succeeds, characteristic present,
serialization succeeds); whichever fails first makes the call return
normally (no error to the caller) with no write performed, and the
result does not depend on any later oracle (each conjunct holds for all
values of the later environment fields). -/
theorem C4_precondition_order (led_config : LedConfiguration) (env : WriterEnv) :
    (env.slot = none → update_led_config led_config env = (.returned, []))
    ∧ (∀ pid e, env.slot = some pid → env.discoverServices = .error e →
        update_led_config led_config env = (.returned, [.discover]))
    ∧ (∀ pid, env.slot = some pid → env.discoverServices = .ok () →
        env.characteristics.find? (fun el => el.uuid == LED_CONFIG_CHAR_UUID) = none →
        update_led_config led_config env = (.returned, [.discover]))
    ∧ (∀ pid c e, env.slot = some pid → env.discoverServices = .ok () →
        env.characteristics.find? (fun el => el.uuid == LED_CONFIG_CHAR_UUID) = some c →
        env.encodeResult led_config = .error e →
        update_led_config led_config env = (.returned, [.discover])) := by
  refine ⟨fun h => by simp [update_led_config, h], ?_, ?_, ?_⟩
  · intro pid e h1 h2; simp [update_led_config, h1, h2]
  · intro pid h1 h2 h3; simp [update_led_config, h1, h2, h3]
  · intro pid c e h1 h2 h3 h4; simp [update_led_config, h1, h2, h3, h4]

/-- Witness for C4: a bound handle whose characteristic list lacks the
target UUID aborts after discovery with no write. -/
theorem C4_precondition_order_witness :
    update_led_config ⟨5, 1000, false⟩ envWriterNoChar = (.returned, [.discover]) :=
  (C4_precondition_order ⟨5, 1000, false⟩ envWriterNoChar).2.2.1 3 rfl rfl (by decide)

/-- **C8** — With all four preconditions satisfied, the writer performs
exactly one write, of the serialized bytes, to the matched
characteristic, in `WriteType::WithoutResponse` mode; a failure of that
write is not handled or returned — the `.unwrap()` panics in the calling
context. -/
theorem C8_write_without_response (led_config : LedConfiguration) (env : WriterEnv)
    (pid : Nat) (c : Characteristic) (bytes : List Nat)
    (h1 : env.slot = some pid) (h2 : env.discoverServices = .ok ())
    (h3 : env.characteristics.find? (fun el => el.uuid == LED_CONFIG_CHAR_UUID) = some c)
    (h4 : env.encodeResult led_config = .ok bytes) :
    (env.writeResult = .ok () →
        update_led_config led_config env =
          (.returned, [.discover, .write c.uuid bytes .withoutResponse]))
    ∧ (∀ e, env.writeResult = .error e →
        update_led_config led_config env =
          (.crashed, [.discover, .write c.uuid bytes .withoutResponse])) := by
  constructor
  · intro h5; simp [update_led_config, h1, h2, h3, h4, h5]
  · intro e h5; simp [update_led_config, h1, h2, h3, h4, h5]

/-- Witness for C8: a failing write panics after exactly one write
attempt in without-response mode. -/
theorem C8_write_without_response_witness :
    update_led_config ⟨1, 2, true⟩ envWriterBadWrite =
      (.crashed, [.discover, .write LED_CONFIG_CHAR_UUID [1, 2, 3] .withoutResponse]) :=
  (C8_write_without_response ⟨1, 2, true⟩ envWriterBadWrite 3 ⟨LED_CONFIG_CHAR_UUID⟩
    [1, 2, 3] rfl rfl (by decide) rfl).2 "write failed" rfl

/-- **C1 (counterexample)** — The claimed invariant fails on the code: a
scan cycle enumerating one peripheral whose name matches the target,
whose connect attempt succeeds, but whose post-attempt connection flag
reads back false, ends with a non-empty slot (the handle is stored at
line 113 regardless of the flag) while no liveness/scan check found the
target connected and no event was emitted. -/
theorem C1_refuted :
    cycle none envStoredNotConnected = .ok (some 0) []
    ∧ matchesTarget peripheralStoredNotConnected = true
    ∧ peripheralStoredNotConnected.isConnectedPost = .ok false := by
  refine ⟨by decide, by decide, rfl⟩

/-- **C1 (amended)** — The slot invariant the code actually maintains:
after a normally completed BOUND cycle, the slot is non-empty iff the
liveness check read back connected; after a normally completed scan
cycle, the slot is non-empty iff some enumerated peripheral matched the
target name and was already connected or connected successfully — the
post-attempt connection flag plays no role in storing. -/
theorem C1_slot_iff_storable (env : CycleEnv) :
    (∀ pid s evs, cycle (some pid) env = .ok s evs →
        (s.isSome = true ↔ env.boundIsConnected = .ok true))
    ∧ (∀ ps s evs, env.peripherals = .ok ps → cycle none env = .ok s evs →
        (s.isSome = true ↔ ∃ p ∈ ps, storable p = true)) := by
  constructor
  · intro pid s evs h
    cases hb : env.boundIsConnected with
    | error e => simp [cycle, hb] at h
    | ok b =>
      cases b with
      | true =>
        cases he : env.emitBoundTrue with
        | error e => simp [cycle, hb, he] at h
        | ok u =>
          simp only [cycle, hb, he, CycleResult.ok.injEq] at h
          simp [← h.1, hb]
      | false =>
        cases he : env.emitBoundFalse with
        | error e => simp [cycle, hb, he] at h
        | ok u =>
          simp only [cycle, hb, he, CycleResult.ok.injEq] at h
          simp [← h.1, hb]
  · intro ps s evs hps h
    cases hai : env.adapterInfo with
    | error e => simp [cycle, hai] at h
    | ok info =>
      cases hss : env.startScan with
      | error e => simp [cycle, hai, hss] at h
      | ok u =>
        cases hscan : scanPeripherals ps none [] false with
        | inl ex => cases ex <;> simp [cycle, hai, hss, hps, hscan] at h
        | inr t =>
          obtain ⟨slot', events, found⟩ := t
          obtain ⟨hiff, hfound⟩ :=
            scanPeripherals_inr_characterize ps none [] false slot' events found hscan
          cases found with
          | true =>
            simp only [cycle, hai, hss, hps, hscan, if_true, CycleResult.ok.injEq] at h
            rw [← h.1]
            simpa using hiff
          | false =>
            have hany : ps.any matchesTarget = false := by
              simpa using hfound.symm
            cases hnf : env.emitNotFound with
            | error e => simp [cycle, hai, hss, hps, hscan, hnf] at h
            | ok u2 =>
              simp only [cycle, hai, hss, hps, hscan, if_false, hnf,
                Bool.false_eq_true, CycleResult.ok.injEq] at h
              rw [← h.1]
              simp only [Option.isSome_none, Bool.false_eq_true, false_iff]
              rintro ⟨p, hmem, hst⟩
              have := storable_matchesTarget p hst
              have := List.any_eq_true.mpr ⟨p, hmem, this⟩
              rw [hany] at this
              exact Bool.false_ne_true this

/-- Witness for the amended C1 at the concrete scan cycle of
`C1_refuted`: the slot ends non-empty and the stored peripheral is
exactly the storable one. -/
theorem C1_slot_iff_storable_witness :
    (some 0 : Option Nat).isSome = true ↔
      ∃ p ∈ [peripheralStoredNotConnected], storable p = true :=
  (C1_slot_iff_storable envStoredNotConnected).2 [peripheralStoredNotConnected]
    (some 0) [] rfl (by decide)

/-- **C5** — Error taxonomy of the monitor loop: failures of the
adapter-info query, of peripheral enumeration, and of any
property/connection-flag read propagate (`fatal`) and stop the run;
a failing connect attempt on a matching candidate is skipped and the
`for` loop continues with `found` set; and a run only ever stops on a
non-`ok` cycle outcome — an error-free loop body never terminates the
loop. -/
theorem C5_error_taxonomy :
    (∀ (pid : Nat) (env : CycleEnv) e, env.boundIsConnected = .error e →
        cycle (some pid) env = .fatal e (some pid) [])
    ∧ (∀ (env : CycleEnv) e, env.adapterInfo = .error e →
        cycle none env = .fatal e none [])
    ∧ (∀ (env : CycleEnv) info e, env.adapterInfo = .ok info → env.startScan = .ok () →
        env.peripherals = .error e → cycle none env = .fatal e none [])
    ∧ (∀ (p : PeripheralB) rest slot events found e, p.props = .error e →
        scanPeripherals (p :: rest) slot events found = .inl (.fatal e slot events))
    ∧ (∀ (p : PeripheralB) rest slot events found propsOpt e,
        p.props = .ok propsOpt → p.isConnectedPre = .error e →
        scanPeripherals (p :: rest) slot events found = .inl (.fatal e slot events))
    ∧ (∀ (p : PeripheralB) rest slot events found localName e,
        p.props = .ok (some localName) → nameMatches localName = true →
        p.isConnectedPre = .ok true → p.isConnectedPost = .error e →
        scanPeripherals (p :: rest) slot events found = .inl (.fatal e slot events))
    ∧ (∀ (p : PeripheralB) rest slot events found localName e,
        p.props = .ok (some localName) → nameMatches localName = true →
        p.isConnectedPre = .ok false → p.connectRes = .error e →
        scanPeripherals (p :: rest) slot events found =
          scanPeripherals rest slot events true)
    ∧ (∀ slot envs r, monitorRun slot envs = .inl r → ∀ s evs, r ≠ .ok s evs)
    ∧ (∀ slot (env : CycleEnv) rest s evs, cycle slot env = .ok s evs →
        (monitorRun slot (env :: rest)).isLeft = (monitorRun s rest).isLeft) := by
  refine ⟨?_, ?_, ?_, ?_, ?_, ?_, ?_, ?_, ?_⟩
  · intro pid env e h; simp [cycle, h]
  · intro env e h; simp [cycle, h]
  · intro env info e h1 h2 h3; simp [cycle, h1, h2, h3]
  · intro p rest slot events found e h; simp [scanPeripherals, h]
  · intro p rest slot events found propsOpt e h1 h2; simp [scanPeripherals, h1, h2]
  · intro p rest slot events found localName e h1 h2 h3 h4
    simp [scanPeripherals, h1, h2, h3, h4]
  · intro p rest slot events found localName e h1 h2 h3 h4
    simp [scanPeripherals, h1, h2, h3, h4]
  · intro slot envs
    induction envs generalizing slot with
    | nil => intro r h; simp [monitorRun] at h
    | cons env rest ih =>
      intro r h
      cases hc : cycle slot env with
      | ok s evs =>
        cases hm : monitorRun s rest with
        | inl r' =>
          simp only [monitorRun, hc, hm, Sum.inl.injEq] at h
          exact h ▸ ih s r' hm
        | inr t => simp [monitorRun, hc, hm] at h
      | fatal e s evs =>
        simp only [monitorRun, hc, Sum.inl.injEq] at h
        subst h; simp
      | crashed s evs =>
        simp only [monitorRun, hc, Sum.inl.injEq] at h
        subst h; simp
  · intro slot env rest s evs h
    cases hm : monitorRun s rest with
    | inl r => simp [monitorRun, h, hm]
    | inr t => obtain ⟨s', evs'⟩ := t; simp [monitorRun, h, hm]

/-- Witness for C5: the bound-handle connection-flag read failing
propagates out of the cycle. -/
theorem C5_error_taxonomy_witness :
    cycle (some 1) envBoundReadFails = .fatal "adapter gone" (some 1) [] :=
  C5_error_taxonomy.1 1 envBoundReadFails "adapter gone" rfl

/-- **C7** — A scan cycle in which every enumerated peripheral reads
cleanly and misses the name test ends with an empty slot and the single
event `false`; this is purely a function of the cycle, so it holds on
every such cycle. -/
theorem C7_scan_miss_emits_false (env : CycleEnv) (info : String) (ps : List PeripheralB)
    (h1 : env.adapterInfo = .ok info) (h2 : env.startScan = .ok ())
    (h3 : env.peripherals = .ok ps) (h4 : ∀ p ∈ ps, cleanMiss p = true)
    (h5 : env.emitNotFound = .ok ()) :
    cycle none env = .ok none [false] := by
  simp [cycle, h1, h2, h3, h5, scanPeripherals_all_miss ps none [] false h4]

/-- Witness for C7 at a scan cycle enumerating one non-matching
peripheral. -/
theorem C7_scan_miss_emits_false_witness :
    cycle none envScanMiss = .ok none [false] :=
  C7_scan_miss_emits_false envScanMiss "hci0" [peripheralOtherName]
    rfl rfl rfl (by decide) rfl

/-- **C9** — A scan cycle in which some peripheral matches the target
name but every matching candidate either fails its connect attempt or
reads back a false post-attempt connection flag completes normally and
emits no connectivity event at all: `found` is set, so no `false` is
emitted, and no candidate reaches the `true` emission. -/
theorem C9_dead_matches_emit_nothing (env : CycleEnv) (info : String)
    (ps : List PeripheralB)
    (h1 : env.adapterInfo = .ok info) (h2 : env.startScan = .ok ())
    (h3 : env.peripherals = .ok ps)
    (h4 : ∀ p ∈ ps, deadMatch p = true)
    (h5 : ps.any matchesTarget = true) :
    ∃ s, cycle none env = .ok s [] := by
  obtain ⟨slot', hs⟩ := scanPeripherals_all_dead ps none [] false h4
  exact ⟨slot', by simp [cycle, h1, h2, h3, hs, h5]⟩

/-- Witness for C9 at a scan cycle enumerating one matching peripheral
whose connect attempt fails: no event reaches the sink. -/
theorem C9_dead_matches_emit_nothing_witness :
    ∃ s, cycle none envConnectFails = .ok s [] :=
  C9_dead_matches_emit_nothing envConnectFails "hci0" [peripheralConnectFails]
    rfl rfl rfl (by decide) (by decide)

/-- **C10** — Slot mutations happen before the corresponding emission,
so an emit failure that terminates the loop leaves the slot already
holding the post-transition value: a detected disconnect clears the slot
before the failing `false` emission; a scan store writes the handle
before the failing `true` emission; a no-match cycle clears the slot
before the failing `false` emission. -/
theorem C10_mutate_before_emit :
    (∀ (pid : Nat) (env : CycleEnv) e, env.boundIsConnected = .ok false →
        env.emitBoundFalse = .error e →
        cycle (some pid) env = .fatal e none [])
    ∧ (∀ (p : PeripheralB) rest slot events found localName e,
        p.props = .ok (some localName) → nameMatches localName = true →
        p.isConnectedPre = .ok true → p.isConnectedPost = .ok true →
        p.emitRes = .error e →
        scanPeripherals (p :: rest) slot events found =
          .inl (.fatal e (some p.pid) events))
    ∧ (∀ (env : CycleEnv) info ps e, env.adapterInfo = .ok info →
        env.startScan = .ok () → env.peripherals = .ok ps →
        (∀ p ∈ ps, cleanMiss p = true) → env.emitNotFound = .error e →
        cycle none env = .fatal e none []) := by
  refine ⟨?_, ?_, ?_⟩
  · intro pid env e h1 h2; simp [cycle, h1, h2]
  · intro p rest slot events found localName e h1 h2 h3 h4 h5
    simp [scanPeripherals, h1, h2, h3, h4, h5]
  · intro env info ps e h1 h2 h3 h4 h5
    simp [cycle, h1, h2, h3, h5, scanPeripherals_all_miss ps none [] false h4]

/-- Witness for C10: a matching, already-connected peripheral whose emit
fails exits the loop with the handle already stored. -/
theorem C10_mutate_before_emit_witness :
    scanPeripherals [peripheralEmitFails] none [] false =
      .inl (.fatal "emit failed" (some 4) []) :=
  C10_mutate_before_emit.2.1 peripheralEmitFails [] none [] false
    (some ESP_BLE_NAME) "emit failed" rfl (by decide) rfl rfl rfl

end BleSpec
